import Mathlib

/-!
Verification development for the bird-player playback engine.

Shallow embedding of the playback pipeline: the resampler
(`src/resampler.rs`), the cpal output sink (`src/output.rs`), the audio
thread state machine (`src/main.rs`) and the controller-side `Player`
(`src/app/player.rs`).  Machine floats are modelled by rationals; the
points at which theorems evaluate them are points where the `f32`/`f64`
computation is exact, or the comparison result provably agrees with the
rational one.  Code that can `panic!`/`unwrap` is embedded in the
exception type `Step`.
-/

namespace BirdPlayer

/-! ### Resampler (src/resampler.rs) -/

/-- Resampling algorithm type (src/resampler.rs lines 14-19). -/
inductive ResamplerType where
  | highQuality
  | linear
  deriving DecidableEq

/-- Algorithm selection in `Resampler::new` (src/resampler.rs lines 130-140):
`ratio_diff = |to - from| / from` is computed in `f64` and Linear is chosen
iff `ratio_diff < 0.25`.  For integer sample rates the `f64` comparison
agrees exactly with the rational one (the quotient of two exactly
representable integers never rounds across the representable bound `0.25`
at these magnitudes), embedded here as `4 * |to - from| < from`. -/
def resamplerTypeOf (fromRate toRate : ℕ) : ResamplerType :=
  if 4 * ((toRate : ℤ) - (fromRate : ℤ)).natAbs < fromRate then
    ResamplerType.linear
  else
    ResamplerType.highQuality

/-- Modelled from the spec: "both rates fall in common consumer ranges" —
the common consumer audio sample rates (CD 44.1 kHz, video/DVD 48 kHz and
their consumer hi-res doubles 88.2 kHz and 96 kHz).  This clause exists
only in the spec, not in the source; the definition is used solely to
compare the spec's claimed selection rule with `resamplerTypeOf`. -/
def commonConsumerRate (r : ℕ) : Bool :=
  r = 44100 || r = 48000 || r = 88200 || r = 96000

/-- Modelled from the spec: the claimed condition for picking the
lower-cost algorithm — relative rate difference below the threshold `th`
(spec: "roughly 20-25%"), or both rates in common consumer ranges. -/
def specSelectsLinear (th : ℚ) (fromRate toRate : ℕ) : Prop :=
  |(toRate : ℚ) - (fromRate : ℚ)| / (fromRate : ℚ) < th ∨
    (commonConsumerRate fromRate = true ∧ commonConsumerRate toRate = true)

instance (th : ℚ) (a b : ℕ) : Decidable (specSelectsLinear th a b) := by
  unfold specSelectsLinear; infer_instance

/-- Effect of one `Resampler::resample` call on the per-channel input queue
length (src/resampler.rs lines 197-219): the decoded buffer's `frames`
samples are appended to every channel queue; if the queue then holds at
least `duration` samples (one processing block), `resample_inner` runs
once and drains exactly `duration` samples (lines 84-87), otherwise the
call returns `None` and nothing is drained. -/
def resampleStepLen (d len f : ℕ) : ℕ :=
  if d ≤ len + f then len + f - d else len + f

/-- Input queue length after a sequence of `resample` calls with the given
per-call frame counts, starting from the empty queue created in
`Resampler::new` (src/resampler.rs line 177). -/
def queueLenAfter (d : ℕ) (frames : List ℕ) : ℕ :=
  frames.foldl (resampleStepLen d) 0

/-- Queue length after the padding step of `Resampler::flush`
(src/resampler.rs lines 230-238): when the length is not a multiple of
`duration`, every channel is resized up with silence (`f32::MID`) to the
next multiple of `duration`. -/
def flushPaddedLen (d len : ℕ) : ℕ :=
  if len % d ≠ 0 then len + (d - len % d) else len

/-- Queue length remaining after `Resampler::flush` (src/resampler.rs
lines 223-241): an empty queue returns `None` untouched; otherwise the
queue is padded to a block boundary and `resample_inner` runs once,
draining exactly `d` samples. -/
def flushRemainder (d len : ℕ) : ℕ :=
  if len = 0 then len else flushPaddedLen d len - d

/-! ### Output sink (src/output.rs, cpal backend) -/

/-- Error classification of the output sink (src/output.rs lines 23-27). -/
inductive AudioOutputError where
  | openStreamError
  | playStreamError
  | streamClosedError
  deriving DecidableEq

/-- The retry loop of `CpalAudioOutputImpl::write` (src/output.rs lines
499-529): `while samples_written < samples_len && retry_count < 5`, each
iteration calls `ring_buf_producer.write_blocking` on the unwritten tail.
`oracle k` is the result of the `write_blocking` call made when
`retry_count = k` (every iteration that does not complete the write
increments `retry_count`, so the retry counter indexes the calls); a
`some w` result advances `samples_written` by at most the remaining
amount, a `none` result only backs off.  The sleeps have no modelled
state effect. -/
def writeRetryLoop (oracle : ℕ → Option ℕ) (len written retry : ℕ) : ℕ × ℕ :=
  if written < len ∧ retry < 5 then
    match oracle retry with
    | some w =>
      if written + min w (len - written) < len then
        writeRetryLoop oracle len (written + min w (len - written)) (retry + 1)
      else
        (written + min w (len - written), retry)
    | none => writeRetryLoop oracle len written (retry + 1)
  else
    (written, retry)
termination_by 5 - retry
decreasing_by all_goals omega

/-- Environment of one `write` call: the ring buffer's responses and the
wall-clock distance to the last overflow warning. -/
structure WriteEnv where
  writeBlocking : ℕ → Option ℕ
  elapsedSinceWarnMs : ℕ

/-- Arguments and session facts of one `CpalAudioOutputImpl::write` call:
the decoded buffer's frame count, the requested volume, whether a
resampler is attached, what `resampler.resample` returned (number of
interleaved samples, or `none` while accumulating), and the interleaved
sample count when no resampler is attached. -/
structure WriteCall where
  frames : ℕ
  volume : ℚ
  resamplerPresent : Bool
  resampledLen : Option ℕ
  interleavedLen : ℕ

/-- Observable outcome of one `write` call. -/
structure WriteResult where
  result : Except AudioOutputError Unit
  storedVolume : Option ℚ
  samplesWritten : ℕ
  samplesLen : ℕ
  retries : ℕ
  logged : Bool

/-- `CpalAudioOutputImpl::write` (src/output.rs lines 472-546): return
`Ok` immediately on an empty buffer; store the volume into the shared
atomic; (the buffer-full check only sleeps); obtain the interleaved
samples from the resampler (early `Ok` when it is accumulating) or the
sample buffer; run the bounded retry loop; if samples remain unwritten,
drop them and log at most once per 500 ms window; always return `Ok`. -/
def cpalWrite (env : WriteEnv) (c : WriteCall) : WriteResult :=
  if c.frames = 0 then
    ⟨Except.ok (), none, 0, 0, 0, false⟩
  else
    match (if c.resamplerPresent then c.resampledLen else some c.interleavedLen) with
    | none => ⟨Except.ok (), some c.volume, 0, 0, 0, false⟩
    | some len =>
      let r := writeRetryLoop env.writeBlocking len 0 0
      ⟨Except.ok (), some c.volume, r.1, len, r.2,
        decide (r.1 < len) && decide (500 < env.elapsedSinceWarnMs)⟩

/-- `AudioOutputSample::mul` for `f32` (src/output.rs lines 232-237):
`self * n`.  Exact in the rational model whenever the `f32` product is
exact. -/
def mulF32 (s v : ℚ) : ℚ := s * v

/-- Rounding of Rust float-to-integer `as` casts: truncation toward
zero. -/
def truncQ (q : ℚ) : ℤ := if 0 ≤ q then ⌊q⌋ else ⌈q⌉

/-- Saturation of Rust `as i16` casts from float. -/
def clampI16 (z : ℤ) : ℤ := max (-32768) (min 32767 z)

/-- Saturation of Rust `as u16` casts from float. -/
def clampU16 (z : ℤ) : ℤ := max 0 (min 65535 z)

/-- `AudioOutputSample::mul` for `i16` (src/output.rs lines 239-244):
`((*self as f32) * n) as i16`. -/
def mulI16 (s : ℤ) (v : ℚ) : ℤ := clampI16 (truncQ ((s : ℚ) * v))

/-- `AudioOutputSample::mul` for `u16` (src/output.rs lines 246-251):
`((*self as f32) * n) as u16`.  The `u16` sample value is offset-encoded
with midpoint (silence) 32768. -/
def mulU16 (s : ℤ) (v : ℚ) : ℤ := clampU16 (truncQ ((s : ℚ) * v))

/-- Modelled from the spec: scaling a `u16` sample's amplitude by `v`
relative to the offset-encoded midpoint 32768 (spec 8: "Setting volume to
V scales subsequent callback output amplitude by V relative to
V = 1.0").  Reference value for comparison with `mulU16`. -/
def u16AmpScale (s : ℤ) (v : ℚ) : ℚ := 32768 + v * ((s : ℚ) - 32768)

/-- The real-time callback body (src/output.rs lines 395-425) for a
device sample type with midpoint `mid` and scaling function `mul`: the
volume is loaded once per invocation; `read` copies as many ring-buffer
samples as fit into the requested slice (`written` many); when the volume
is not `1.0` the written prefix is scaled in place by `mul`; the shortfall
is muted with `mid`.  (The buffer-full flag store has no effect on the
produced samples and is not modelled.) -/
def callback {α : Type} (mid : α) (mul : α → ℚ → α) (volume : ℚ)
    (ring : List α) (requested : ℕ) : List α :=
  let avail := ring.take requested
  let scaled := if volume ≠ 1 then avail.map (fun s => mul s volume) else avail
  scaled ++ List.replicate (requested - avail.length) mid

/-! ### Commands and controller (src/app/mod.rs, src/app/player.rs) -/

/-- File paths, abstract. -/
abbrev Path := String

/-- `AudioCommand` (src/app/mod.rs lines 35-43). -/
inductive AudioCommand where
  | stop
  | play
  | pause
  | seek (ts : ℕ)
  | loadFile (path : Path)
  | select (n : ℕ)
  | setVolume (v : ℚ)
  deriving DecidableEq

/-- `UiCommand` (src/app/mod.rs lines 45-50). -/
inductive UiCommand where
  | audioFinished
  | totalTrackDuration (d : ℕ)
  | currentTimestamp (ts : ℕ)
  | playbackStateChanged (playing : Bool)
  deriving DecidableEq

/-- `PlayerState` of the audio thread (src/main.rs lines 458-466). -/
inductive PlayerState where
  | unstarted
  | stopped
  | playing
  | paused
  | loadFile (path : Path)
  | seekTo (ts : ℕ)
  deriving DecidableEq

/-- The mutable locals of the audio loop touched by `process_audio_cmd`. -/
structure CmdState where
  state : PlayerState
  volume : ℚ
  deriving DecidableEq

/-- `process_audio_cmd` (src/main.rs lines 405-446): drain at most one
pending command (`recv = none` models an empty channel) and apply it to
the state and volume locals.  `Select` hits the `_ =>` warn-only arm. -/
def processAudioCmd (recv : Option AudioCommand) (s : CmdState) : CmdState :=
  match recv with
  | none => s
  | some cmd =>
    match cmd with
    | AudioCommand.seek ts => { s with state := PlayerState.seekTo ts }
    | AudioCommand.stop => { s with state := PlayerState.stopped }
    | AudioCommand.pause => { s with state := PlayerState.paused }
    | AudioCommand.play => { s with state := PlayerState.playing }
    | AudioCommand.loadFile p => { s with state := PlayerState.loadFile p }
    | AudioCommand.setVolume v => { s with volume := v }
    | AudioCommand.select _ => s

/-- Controller-side `TrackState` (src/app/player.rs lines 204-209). -/
inductive TrackState where
  | unstarted
  | stopped
  | playing
  | paused
  deriving DecidableEq

/-- Controller-side `Player` state relevant to transport commands: its
track state, the selected track (by path) and the commands it has sent on
`audio_tx`, oldest first. -/
structure PlayerCtl where
  trackState : TrackState
  selectedTrack : Option Path
  sent : List AudioCommand
  deriving DecidableEq

/-- `Player::pause` (src/app/player.rs lines 105-121): while `Playing`,
become `Paused` and send `Pause`; while `Paused`, toggle back to
`Playing` and send `Play`; otherwise do nothing. -/
def playerPause (p : PlayerCtl) : PlayerCtl :=
  match p.trackState with
  | TrackState.playing =>
    { p with trackState := TrackState.paused, sent := p.sent ++ [AudioCommand.pause] }
  | TrackState.paused =>
    { p with trackState := TrackState.playing, sent := p.sent ++ [AudioCommand.play] }
  | _ => p

/-- `Player::stop` (src/app/player.rs lines 71-81): only while `Playing`
or `Paused` does it change state and send `Stop`; in every other state it
does nothing. -/
def playerStop (p : PlayerCtl) : PlayerCtl :=
  match p.trackState with
  | TrackState.playing =>
    { p with trackState := TrackState.stopped, sent := p.sent ++ [AudioCommand.stop] }
  | TrackState.paused =>
    { p with trackState := TrackState.stopped, sent := p.sent ++ [AudioCommand.stop] }
  | _ => p

/-! ### Source loader and engine state machine (src/main.rs) -/

/-- A demuxer track (symphonia `Track`), reduced to the codec parameters
the loader reads: its id, whether the codec is `CODEC_TYPE_NULL`, the
frame count and start offset used for the duration, and the time base
(whose absence panics in the `tracing::info!` at src/main.rs line 543). -/
structure Track where
  id : ℕ
  codecNull : Bool
  nFrames : Option ℕ
  startTs : ℕ
  timeBase : Option ℕ
  deriving DecidableEq

/-- Possible demuxer responses to `reader.seek(SeekMode::Accurate, ..)`. -/
inductive SeekOutcome where
  | seekedTo (requiredTs : ℕ)
  | resetRequired
  | otherError
  deriving DecidableEq

/-- A format reader handle: its track list and its response to an
accurate seek request at a given timestamp. -/
structure Reader where
  tracks : List Track
  seekResult : ℕ → SeekOutcome

/-- `first_supported_track` (src/main.rs lines 609-613): the first track
whose codec is not `CODEC_TYPE_NULL`. -/
def firstSupportedTrack (tracks : List Track) : Option Track :=
  tracks.find? (fun t => !t.codecNull)

/-- `PlayTrackOptions` (src/main.rs lines 452-456). -/
structure PlayTrackOptions where
  trackId : ℕ
  seekTs : ℕ
  deriving DecidableEq

/-- Outcome of running engine code that may `panic!` (via `expect` or
`unwrap`): either a value or a panic with the poisoning message. -/
inductive Step (α : Type) where
  | ok (a : α)
  | panics (msg : String)

/-- `AudioEngineState` (src/main.rs lines 468-476).  `audioOutput` models
`audio_output.is_some()`; the decoder option lives in a separate local of
the audio thread (`hasDecoder` in `Engine`). -/
structure AudioEngineState where
  reader : Option Reader
  audioOutput : Bool
  trackNum : Option ℕ
  seek : Option ℕ
  trackInfo : Option PlayTrackOptions
  duration : ℕ

/-- `setup_audio_reader` (src/main.rs lines 554-607): select the
user-chosen track index if it exists, else the first supported track; if
none, return leaving `track_info` untouched.  When a seek is pending,
attempt it: on success the achieved `required_ts` becomes the trim
threshold; on `ResetRequired` re-select the first supported track
(`unwrap` panics when there is none) and use threshold 0; on any other
seek error use threshold 0.  (`reader.as_mut().unwrap()` panics when no
reader is loaded.) -/
def setupAudioReader (s : AudioEngineState) : Step AudioEngineState :=
  match s.reader with
  | none => Step.panics "reader unwrap"
  | some reader =>
    match (s.trackNum.bind (fun t => reader.tracks[t]?)).orElse
        (fun _ => firstSupportedTrack reader.tracks) with
    | none => Step.ok s
    | some track0 =>
      match s.seek with
      | some ts =>
        match reader.seekResult ts with
        | SeekOutcome.seekedTo r =>
          Step.ok { s with trackInfo := some ⟨track0.id, r⟩ }
        | SeekOutcome.resetRequired =>
          match firstSupportedTrack reader.tracks with
          | none => Step.panics "first_supported_track unwrap"
          | some t2 => Step.ok { s with trackInfo := some ⟨t2.id, 0⟩ }
        | SeekOutcome.otherError =>
          Step.ok { s with trackInfo := some ⟨track0.id, 0⟩ }
      | none => Step.ok { s with trackInfo := some ⟨track0.id, 0⟩ }

/-- Filesystem and codec-registry environment of `load_file`: whether
`File::open` succeeds for a path, what the probe yields for its content
(`none` models a probe error: unsupported/unrecognized format), and
whether `get_codecs().make(..)` can build a decoder for the selected
track. -/
structure Env where
  openOk : Path → Bool
  probe : Path → Option Reader
  codecAvailable : Bool

/-- The pair of audio-thread locals `load_file` mutates besides the
engine state: the decoder option (as presence). -/
structure LoadState where
  aes : AudioEngineState
  hasDecoder : Bool

/-- `load_file` (src/main.rs lines 478-552): `File::open(path).expect`
panics on an unreadable path.  A probe error is logged only — no field of
the engine state is touched.  On probe success the reader and seek target
are installed, `setup_audio_reader` runs (its `Result` is discarded but
its panics propagate), `track_info.unwrap()` panics if it is still unset,
the selected track is looked up (warn-and-return when absent), a decoder
is built (`expect` panics when the codec registry cannot), the duration
is derived from `start_ts + n_frames` when available, and the
`tracing::info!` call unwraps the track's time base. -/
def loadFileFn (env : Env) (path : Path) (seekTs : ℕ) (s : LoadState) : Step LoadState :=
  if env.openOk path = false then Step.panics "couldn't open file"
  else
    match env.probe path with
    | none => Step.ok s
    | some reader =>
      let aes0 := { s.aes with reader := some reader, seek := some seekTs }
      match setupAudioReader aes0 with
      | Step.panics m => Step.panics m
      | Step.ok aes1 =>
        match aes1.trackInfo with
        | none => Step.panics "track_info unwrap"
        | some playOpts =>
          match reader.tracks.find? (fun t => t.id = playOpts.trackId) with
          | none => Step.ok { s with aes := aes1 }
          | some track =>
            if env.codecAvailable = false then Step.panics "Failed to get decoder"
            else
              let aes2 :=
                match track.nFrames with
                | some fr => { aes1 with duration := track.startTs + fr }
                | none => aes1
              match track.timeBase with
              | none => Step.panics "time_base unwrap"
              | some _ => Step.ok ⟨aes2, true⟩

/-- The audio thread's full mutable state (src/main.rs lines 96-112):
the `PlayerState`, the `AudioEngineState`, the decoder local (as
presence), the volume local, the current track path, the `last_ts`
rate-limiting local, and the `UiCommand`s sent so far (oldest first). -/
structure Engine where
  state : PlayerState
  aes : AudioEngineState
  hasDecoder : Bool
  volume : ℚ
  currentTrackPath : Option Path
  lastTs : ℕ
  uiEvents : List UiCommand

/-- The `PlayerState::LoadFile` arm (src/main.rs lines 266-289): flush
any open output and finalize any decoder (no modelled state change), drop
the output sink, remember the path, run `load_file` at offset 0, send
`TotalTrackDuration` of whatever duration the engine state now holds, and
transition to `Playing` — unconditionally, whether or not `load_file`
established a session. -/
def loadFileArm (env : Env) (path : Path) (e : Engine) : Step Engine :=
  let e1 := { e with aes := { e.aes with audioOutput := false },
                     currentTrackPath := some path }
  match loadFileFn env path 0 ⟨e1.aes, e1.hasDecoder⟩ with
  | Step.panics m => Step.panics m
  | Step.ok ls =>
    Step.ok { e1 with
      aes := ls.aes,
      hasDecoder := ls.hasDecoder,
      uiEvents := e1.uiEvents ++ [UiCommand.totalTrackDuration ls.aes.duration],
      state := PlayerState.playing }

/-- The `PlayerState::Stopped` arm (src/main.rs lines 211-241): flush the
output if open; then only when a current track path exists: finalize the
decoder, flush again, drop the output sink, reload the current file at
offset 0, send `CurrentTimestamp(0)` and settle into `Unstarted`.  With
no current track path nothing at all happens — the state remains
`Stopped` and no event is sent. -/
def stoppedArm (env : Env) (e : Engine) : Step Engine :=
  match e.currentTrackPath with
  | none => Step.ok e
  | some p =>
    let e1 := { e with aes := { e.aes with audioOutput := false } }
    match loadFileFn env p 0 ⟨e1.aes, e1.hasDecoder⟩ with
    | Step.panics m => Step.panics m
    | Step.ok ls =>
      Step.ok { e1 with
        aes := ls.aes,
        hasDecoder := ls.hasDecoder,
        uiEvents := e1.uiEvents ++ [UiCommand.currentTimestamp 0],
        state := PlayerState.unstarted }

/-- Result of decoding one packet (`decoder.decode(&packet)`):
success, a non-fatal `Error::DecodeError`, or any other (fatal) error. -/
inductive DecodeOutcome where
  | ok
  | decodeError
  | fatalError
  deriving DecidableEq

/-- What `reader.next_packet()` yields this iteration: a packet of some
track with some timestamp whose decode behaves as given, the normal
end-of-stream error, or any other read error. -/
inductive PacketOutcome where
  | packet (trackId ts : ℕ) (decode : DecodeOutcome)
  | endOfStream
  | readError

/-- Per-iteration inputs of the `Playing` arm beyond the engine state:
the next-packet outcome, whether `timer.elapsed()` exceeds one second,
and whether `output::try_open` would succeed if the sink must be
opened. -/
structure PlayingInput where
  next : PacketOutcome
  timerOverSecond : Bool
  outputOpenOk : Bool

/-- The `PlayerState::Playing` arm (src/main.rs lines 119-210), one
iteration.  Returns the engine state and whether the decoded samples were
rendered (`audio_output.write` called).  `reader.as_mut().unwrap()` and
`track_info.unwrap()` panic when absent.  End of stream sets `Stopped`
and sends `AudioFinished` (the error is then swallowed by
`ignore_end_of_stream_error`); any other read error reaches the
`.expect` and panics.  A foreign-track packet is skipped.  The timestamp
event is sent only after a second and a >1000 tick change (or a move
backwards).  `decoder.as_mut().unwrap()` panics when no decoder exists;
a `DecodeError` is logged and skipped; any other decode error panics at
the `.expect`.  On first success the output sink is opened
(`try_open(..).unwrap()` panics on failure) and the samples are written
iff the packet timestamp is at least the session's trim threshold. -/
def playingArm (inp : PlayingInput) (e : Engine) : Step (Engine × Bool) :=
  match e.aes.reader with
  | none => Step.panics "reader unwrap"
  | some _reader =>
    match e.aes.trackInfo with
    | none => Step.panics "track_info unwrap"
    | some playOpts =>
      match inp.next with
      | PacketOutcome.endOfStream =>
        Step.ok ({ e with state := PlayerState.stopped,
                          uiEvents := e.uiEvents ++ [UiCommand.audioFinished] }, false)
      | PacketOutcome.readError =>
        Step.panics "Encountered some other error than EoF"
      | PacketOutcome.packet trackId ts dec =>
        if trackId ≠ playOpts.trackId then Step.ok (e, false)
        else
          let e1 :=
            if inp.timerOverSecond ∧ (e.lastTs + 1000 < ts ∨ ts < e.lastTs) then
              { e with uiEvents := e.uiEvents ++ [UiCommand.currentTimestamp ts],
                       lastTs := ts }
            else e
          match e1.hasDecoder, dec with
          | false, _ => Step.panics "decoder unwrap"
          | true, DecodeOutcome.decodeError => Step.ok (e1, false)
          | true, DecodeOutcome.fatalError =>
            Step.panics "Encountered some other error than EoF"
          | true, DecodeOutcome.ok =>
            if e1.aes.audioOutput = false ∧ inp.outputOpenOk = false then
              Step.panics "try_open unwrap"
            else
              let e2 := { e1 with aes := { e1.aes with audioOutput := true } }
              if playOpts.seekTs ≤ ts then Step.ok (e2, true)
              else Step.ok (e2, false)

/-- Whether a `Playing` iteration rendered samples to the output sink. -/
def renderFlag (s : Step (Engine × Bool)) : Bool :=
  match s with
  | Step.ok (_, b) => b
  | Step.panics _ => false

/-! ### Concrete instances used to evaluate the theorems -/

/-- Engine state right after `load_file` installed `r` with a pending
seek to `reqTs` and no user track override (src/main.rs lines 499-501). -/
def mkAes (r : Reader) (reqTs : ℕ) : AudioEngineState :=
  ⟨some r, false, none, some reqTs, none, 0⟩

/-- Engine about to run a `Playing` iteration over the given engine
state, with a live decoder and a closed output sink. -/
def mkEngine (aes : AudioEngineState) : Engine :=
  ⟨PlayerState.playing, aes, true, 1, some "track", 0, []⟩

/-- Environment in which every file opens but no content probes
(unsupported format). -/
def probeFailEnv : Env := ⟨fun _ => true, fun _ => none, true⟩

/-- Environment in which the file cannot be opened (unreadable path). -/
def openFailEnv : Env := ⟨fun _ => false, fun _ => none, true⟩

/-- The audio thread's state right after boot (src/main.rs lines
96-112): `Unstarted`, empty engine state, no decoder, volume 1, no
current track, nothing sent. -/
def freshEngine : Engine :=
  ⟨PlayerState.unstarted, ⟨none, false, none, none, none, 0⟩, false, 1, none, 0, []⟩

/-- A supported audio track. -/
def demoTrack : Track := ⟨7, false, some 90000, 0, some 44100⟩

/-- A one-track reader whose accurate seeks land exactly on the
requested timestamp. -/
def demoReader : Reader := ⟨[demoTrack], fun ts => SeekOutcome.seekedTo ts⟩

/-- A controller in the `Playing` state with a selected track. -/
def demoCtl : PlayerCtl := ⟨TrackState.playing, some "a", []⟩

/-- A controller in the `Paused` state with a selected track. -/
def demoCtlPaused : PlayerCtl := ⟨TrackState.paused, some "a", []⟩

/-- A controller in the `Unstarted` state with no session. -/
def demoCtlUnstarted : PlayerCtl := ⟨TrackState.unstarted, none, []⟩

/-! ### Helper lemmas -/

/-- Invariant of the resampler's input queue: every `resample` call
appends at most one block (each decoded buffer holds at most
`decoded.capacity()` frames, the very value `duration` that sizes the
block, src/main.rs line 177 and src/output.rs lines 443-451), and
whenever the queue reaches a full block it is drained by one block, so
the queue stays strictly below one block. -/
lemma foldl_resampleStepLen_lt (d : ℕ) (frames : List ℕ)
    (hf : ∀ f ∈ frames, f ≤ d) :
    ∀ len, len < d → List.foldl (resampleStepLen d) len frames < d := by
  induction frames with
  | nil => intro len h; simpa using h
  | cons f fs ih =>
    intro len hlen
    have hfd : f ≤ d := hf f (List.mem_cons_self f fs)
    have htail : ∀ g ∈ fs, g ≤ d := fun g hg => hf g (List.mem_cons_of_mem f hg)
    simp only [List.foldl_cons]
    refine ih htail _ ?_
    unfold resampleStepLen
    split <;> omega

/-- Queue length reachable by any run of `resample` calls from the empty
queue stays strictly below one block. -/
lemma queueLenAfter_lt (d : ℕ) (frames : List ℕ) (hd : 0 < d)
    (hf : ∀ f ∈ frames, f ≤ d) : queueLenAfter d frames < d :=
  foldl_resampleStepLen_lt d frames hf 0 hd

/-- The retry loop of `write` keeps the retry counter at 5 or below and
never over-writes: starting below the caps it ends below them. -/
lemma writeRetryLoop_le (oracle : ℕ → Option ℕ) (len : ℕ) :
    ∀ k written retry, 5 - retry ≤ k → retry ≤ 5 → written ≤ len →
      (writeRetryLoop oracle len written retry).2 ≤ 5 ∧
      (writeRetryLoop oracle len written retry).1 ≤ len := by
  intro k
  induction k with
  | zero =>
    intro written retry hk h5 hw
    have hr : retry = 5 := by omega
    subst hr
    rw [writeRetryLoop]
    simp only [Nat.lt_irrefl, and_false, if_false]
    exact ⟨le_refl 5, hw⟩
  | succ k ih =>
    intro written retry hk h5 hw
    rw [writeRetryLoop]
    split
    · next hg =>
      split
      · next w ho =>
        have hmin : min w (len - written) ≤ len - written := Nat.min_le_right _ _
        split
        · next hlt =>
          exact ih (written + min w (len - written)) (retry + 1)
            (by omega) (by omega) (by omega)
        · next hlt => exact ⟨by omega, by omega⟩
      · next ho => exact ih written (retry + 1) (by omega) (by omega) hw
    · exact ⟨h5, hw⟩

/-- Truncation toward zero lands within one of its argument. -/
lemma truncQ_close (q : ℚ) : |((truncQ q : ℤ) : ℚ) - q| < 1 := by
  unfold truncQ
  split
  · next h =>
    have h1 : ((⌊q⌋ : ℤ) : ℚ) ≤ q := Int.floor_le q
    have h2 : q < ⌊q⌋ + 1 := Int.lt_floor_add_one q
    rw [abs_sub_lt_iff]
    constructor <;> linarith
  · next h =>
    have h1 : q ≤ ((⌈q⌉ : ℤ) : ℚ) := Int.le_ceil q
    have h2 : ((⌈q⌉ : ℤ) : ℚ) < q + 1 := Int.ceil_lt_add_one q
    rw [abs_sub_lt_iff]
    constructor <;> linarith

/-- Truncation toward zero never grows in magnitude. -/
lemma truncQ_abs_le (q : ℚ) : |((truncQ q : ℤ) : ℚ)| ≤ |q| := by
  unfold truncQ
  split
  · next h =>
    have h0 : (0 : ℤ) ≤ ⌊q⌋ := Int.floor_nonneg.mpr h
    have h1 : ((⌊q⌋ : ℤ) : ℚ) ≤ q := Int.floor_le q
    rw [abs_of_nonneg h, abs_of_nonneg (by exact_mod_cast h0)]
    exact h1
  · next h =>
    push_neg at h
    have h0 : ⌈q⌉ ≤ (0 : ℤ) := Int.ceil_le.mpr (by exact_mod_cast le_of_lt h)
    have h1 : q ≤ ((⌈q⌉ : ℤ) : ℚ) := Int.le_ceil q
    rw [abs_of_nonpos (le_of_lt h), abs_of_nonpos (by exact_mod_cast h0)]
    linarith

/-! ### Claim theorems -/

/-- C3: for every resampler state reachable by `resample` calls (each
decoded buffer holds at most one block of frames) whose input queue is
non-empty, `flush` pads the queue with silence exactly up to the next
full block boundary (a multiple of the block size, reached by adding
strictly less than one block) and runs one final resampling pass, after
which no queued input frames at all — in particular at most one block —
remain unprocessed, so no more than one block's duration of trailing
audio is lost. -/
theorem c3_flush_loses_at_most_one_block (d : ℕ) (frames : List ℕ)
    (hd : 0 < d) (hf : ∀ f ∈ frames, f ≤ d)
    (hne : queueLenAfter d frames ≠ 0) :
    flushPaddedLen d (queueLenAfter d frames) % d = 0 ∧
    flushPaddedLen d (queueLenAfter d frames) - queueLenAfter d frames < d ∧
    flushRemainder d (queueLenAfter d frames) ≤ d ∧
    flushRemainder d (queueLenAfter d frames) = 0 := by
  have hlt : queueLenAfter d frames < d := queueLenAfter_lt d frames hd hf
  set len := queueLenAfter d frames with hlen
  have hmod : len % d = len := Nat.mod_eq_of_lt hlt
  have hpad : flushPaddedLen d len = d := by
    unfold flushPaddedLen
    rw [hmod]
    simp only [hne, if_true, ne_eq, not_false_iff]
    omega
  have hrem : flushRemainder d len = 0 := by
    unfold flushRemainder
    simp only [hne, if_false]
    omega
  refine ⟨?_, ?_, ?_, hrem⟩
  · rw [hpad]; exact Nat.mod_self d
  · rw [hpad]; omega
  · rw [hrem]; exact Nat.zero_le d

/-- C3 witness: block size 4, a single `resample` call delivering 3
frames; `flush` pads the 3 queued frames to one 4-frame block and leaves
nothing unprocessed. -/
theorem c3_flush_witness :
    (0 < 4 ∧ (∀ f ∈ [3], f ≤ 4) ∧ queueLenAfter 4 [3] ≠ 0) ∧
    (flushPaddedLen 4 (queueLenAfter 4 [3]) % 4 = 0 ∧
      flushPaddedLen 4 (queueLenAfter 4 [3]) - queueLenAfter 4 [3] < 4 ∧
      flushRemainder 4 (queueLenAfter 4 [3]) ≤ 4 ∧
      flushRemainder 4 (queueLenAfter 4 [3]) = 0) :=
  ⟨⟨by decide, by decide, by decide⟩,
    c3_flush_loses_at_most_one_block 4 [3] (by decide) (by decide) (by decide)⟩

/-- C5 counterexample: 44.1 kHz and 96 kHz are both common consumer
rates, so the claim's selection rule (relative difference below the
threshold, or both rates in common consumer ranges) picks the lower-cost
algorithm for a 44.1 kHz → 96 kHz conversion; the code picks the
higher-quality one, because its only criterion is
`|to - from| / from < 0.25` and here the relative difference is about
1.18. -/
theorem c5_counterexample :
    commonConsumerRate 44100 = true ∧ commonConsumerRate 96000 = true ∧
    specSelectsLinear (1/4) 44100 96000 ∧
    resamplerTypeOf 44100 96000 = ResamplerType.highQuality :=
  ⟨by decide, by decide, Or.inr ⟨by decide, by decide⟩, by decide⟩

/-- C5 (amended): the constructor selects the lower-cost (Linear)
algorithm exactly when the relative rate difference `|to - from| / from`
is strictly below 0.25, and the higher-quality FFT algorithm otherwise;
there is no separate consumer-rate clause. -/
theorem c5_algorithm_selection (fromRate toRate : ℕ) (h : 0 < fromRate) :
    resamplerTypeOf fromRate toRate = ResamplerType.linear ↔
      |(toRate : ℚ) - (fromRate : ℚ)| / (fromRate : ℚ) < 1/4 := by
  have hq : (0 : ℚ) < (fromRate : ℚ) := by exact_mod_cast h
  have hk : ((((toRate : ℤ) - (fromRate : ℤ)).natAbs : ℕ) : ℚ)
      = |(toRate : ℚ) - (fromRate : ℚ)| := by
    rw [Int.cast_natAbs]
    push_cast
    ring_nf
  rw [div_lt_iff₀ hq]
  constructor
  · intro hl
    by_cases hc : 4 * ((toRate : ℤ) - (fromRate : ℤ)).natAbs < fromRate
    · have hcq : ((4 * ((toRate : ℤ) - (fromRate : ℤ)).natAbs : ℕ) : ℚ)
          < (fromRate : ℚ) := by exact_mod_cast hc
      push_cast at hcq
      rw [hk] at hcq
      linarith
    · simp only [resamplerTypeOf, hc, if_false] at hl
      exact ResamplerType.noConfusion hl
  · intro hl
    have h4 : (4 : ℚ) * |(toRate : ℚ) - (fromRate : ℚ)| < (fromRate : ℚ) := by
      linarith
    have hc : 4 * ((toRate : ℤ) - (fromRate : ℤ)).natAbs < fromRate := by
      rw [← hk] at h4
      exact_mod_cast h4
    simp [resamplerTypeOf, hc]

/-- C5 witness: 44.1 kHz → 48 kHz has a relative difference of about
0.088, so the lower-cost algorithm is selected. -/
theorem c5_algorithm_selection_witness :
    (0 < 44100) ∧
    (resamplerTypeOf 44100 48000 = ResamplerType.linear ↔
      |(48000 : ℚ) - (44100 : ℚ)| / (44100 : ℚ) < 1/4) :=
  ⟨by decide, c5_algorithm_selection 44100 48000 (by decide)⟩

/-- C4: for every player with a selected track, `pause` while `Playing`
moves the controller to `Paused` (sending `Pause`, which the engine's
`process_audio_cmd` turns into the `Paused` state), and `pause` while
`Paused` toggles back to `Playing` (sending `Play`, which the engine
turns into `Playing`); hence two `pause` calls starting from `Playing`
return both the controller and the engine to `Playing`. -/
theorem c4_pause_toggle (p q : PlayerCtl) (vol : ℚ)
    (hsel : p.selectedTrack ≠ none)
    (hp : p.trackState = TrackState.playing)
    (hq : q.trackState = TrackState.paused) :
    (playerPause p).trackState = TrackState.paused ∧
    (playerPause q).trackState = TrackState.playing ∧
    (playerPause (playerPause p)).trackState = TrackState.playing ∧
    (playerPause (playerPause p)).sent
      = p.sent ++ [AudioCommand.pause, AudioCommand.play] ∧
    processAudioCmd (some AudioCommand.pause) ⟨PlayerState.playing, vol⟩
      = ⟨PlayerState.paused, vol⟩ ∧
    processAudioCmd (some AudioCommand.play) ⟨PlayerState.paused, vol⟩
      = ⟨PlayerState.playing, vol⟩ := by
  refine ⟨?_, ?_, ?_, ?_, rfl, rfl⟩ <;> simp [playerPause, hp, hq]

/-- C4 witness: a playing controller with track "a"; two `pause` calls
return it to `Playing`, and the engine processes the sent `Pause` and
`Play` back to `Playing`. -/
theorem c4_pause_toggle_witness :
    (demoCtl.selectedTrack ≠ none ∧ demoCtl.trackState = TrackState.playing ∧
      demoCtlPaused.trackState = TrackState.paused) ∧
    ((playerPause demoCtl).trackState = TrackState.paused ∧
      (playerPause demoCtlPaused).trackState = TrackState.playing ∧
      (playerPause (playerPause demoCtl)).trackState = TrackState.playing ∧
      (playerPause (playerPause demoCtl)).sent
        = demoCtl.sent ++ [AudioCommand.pause, AudioCommand.play] ∧
      processAudioCmd (some AudioCommand.pause) ⟨PlayerState.playing, 1⟩
        = ⟨PlayerState.paused, 1⟩ ∧
      processAudioCmd (some AudioCommand.play) ⟨PlayerState.paused, 1⟩
        = ⟨PlayerState.playing, 1⟩) :=
  ⟨⟨by decide, rfl, rfl⟩, c4_pause_toggle demoCtl demoCtlPaused 1 (by decide) rfl rfl⟩

/-- C8 counterexample: an engine that processes `Stop` with no current
track path enters `Stopped` and the `Stopped` arm then leaves it exactly
as it is — in the `Stopped` state, not `Unstarted` as the claim says,
and with no status event. -/
theorem c8_counterexample :
    (processAudioCmd (some AudioCommand.stop) ⟨PlayerState.unstarted, 1⟩).state
      = PlayerState.stopped ∧
    stoppedArm probeFailEnv { freshEngine with state := PlayerState.stopped }
      = Step.ok { freshEngine with state := PlayerState.stopped } ∧
    ({ freshEngine with state := PlayerState.stopped } : Engine).state
      ≠ PlayerState.unstarted ∧
    ({ freshEngine with state := PlayerState.stopped } : Engine).uiEvents = [] :=
  ⟨rfl, rfl, by decide, rfl⟩

/-- C8 (amended): a `Stop` issued while the controller is `Unstarted`
sends no command and leaves the controller unchanged (so the engine never
observes such a `Stop`); if the engine nonetheless processes `Stop` with
no current track path, it transitions to `Stopped` and the `Stopped` arm
leaves it there — in the `Stopped` state, not `Unstarted` — emitting no
status event. -/
theorem c8_stop_unstarted_noop (p : PlayerCtl) (e : Engine) (env : Env) (v : ℚ)
    (hp : p.trackState = TrackState.unstarted)
    (he : e.state = PlayerState.stopped)
    (hpath : e.currentTrackPath = none) :
    playerStop p = p ∧
    (processAudioCmd (some AudioCommand.stop) ⟨PlayerState.unstarted, v⟩).state
      = PlayerState.stopped ∧
    stoppedArm env e = Step.ok e ∧
    e.state = PlayerState.stopped := by
  refine ⟨?_, rfl, ?_, he⟩
  · simp [playerStop, hp]
  · simp [stoppedArm, hpath]

/-- C8 witness: an unstarted controller and a stopped engine with no
current track path. -/
theorem c8_stop_unstarted_noop_witness :
    (demoCtlUnstarted.trackState = TrackState.unstarted ∧
      ({ freshEngine with state := PlayerState.stopped } : Engine).state
        = PlayerState.stopped ∧
      ({ freshEngine with state := PlayerState.stopped } : Engine).currentTrackPath
        = none) ∧
    (playerStop demoCtlUnstarted = demoCtlUnstarted ∧
      (processAudioCmd (some AudioCommand.stop) ⟨PlayerState.unstarted, 1⟩).state
        = PlayerState.stopped ∧
      stoppedArm probeFailEnv { freshEngine with state := PlayerState.stopped }
        = Step.ok { freshEngine with state := PlayerState.stopped } ∧
      ({ freshEngine with state := PlayerState.stopped } : Engine).state
        = PlayerState.stopped) :=
  ⟨⟨rfl, rfl, rfl⟩,
    c8_stop_unstarted_noop demoCtlUnstarted
      { freshEngine with state := PlayerState.stopped } probeFailEnv 1 rfl rfl rfl⟩

/-- C1 (code bug): on a fresh engine, processing `LoadFile` of a path
whose content probe fails does log-and-return inside `load_file`, but the
`LoadFile` arm then unconditionally transitions to `Playing` with no
reader installed, and the very next `Playing` iteration panics unwrapping
the absent reader; an unreadable path panics immediately inside
`load_file` at `File::open(path).expect("couldn't open file")`.  The
engine neither remains idle nor avoids panicking. -/
theorem c1_load_failure_panics :
    loadFileArm probeFailEnv "bad.mp3" freshEngine =
      Step.ok { freshEngine with
        state := PlayerState.playing,
        currentTrackPath := some "bad.mp3",
        uiEvents := [UiCommand.totalTrackDuration 0] } ∧
    playingArm ⟨PacketOutcome.endOfStream, false, true⟩
        { freshEngine with
          state := PlayerState.playing,
          currentTrackPath := some "bad.mp3",
          uiEvents := [UiCommand.totalTrackDuration 0] }
      = Step.panics "reader unwrap" ∧
    loadFileArm openFailEnv "bad.mp3" freshEngine
      = Step.panics "couldn't open file" :=
  ⟨rfl, rfl, rfl⟩

/-- C2: with a supported track available and a pending seek, when the
demuxer achieves the seek, the achieved timestamp becomes the session's
trim threshold, and a successfully decoded packet of the selected track
is rendered to the output sink iff its timestamp is at least that
threshold; when the demuxer signals `ResetRequired`, the supported track
is re-selected, the trim threshold falls back to 0, and every such packet
is rendered. -/
theorem c2_seek_trim (r : Reader) (reqTs achieved : ℕ) (t0 : Track)
    (hsup : firstSupportedTrack r.tracks = some t0) :
    (r.seekResult reqTs = SeekOutcome.seekedTo achieved →
      ∃ aes1, setupAudioReader (mkAes r reqTs) = Step.ok aes1 ∧
        aes1.trackInfo = some ⟨t0.id, achieved⟩ ∧
        ∀ ts : ℕ,
          renderFlag (playingArm
              ⟨PacketOutcome.packet t0.id ts DecodeOutcome.ok, false, true⟩
              (mkEngine aes1))
            = decide (achieved ≤ ts)) ∧
    (r.seekResult reqTs = SeekOutcome.resetRequired →
      ∃ aes1, setupAudioReader (mkAes r reqTs) = Step.ok aes1 ∧
        aes1.trackInfo = some ⟨t0.id, 0⟩ ∧
        ∀ ts : ℕ,
          renderFlag (playingArm
              ⟨PacketOutcome.packet t0.id ts DecodeOutcome.ok, false, true⟩
              (mkEngine aes1))
            = true) := by
  constructor
  · intro hseek
    refine ⟨{ mkAes r reqTs with trackInfo := some ⟨t0.id, achieved⟩ }, ?_, rfl, ?_⟩
    · simp [setupAudioReader, mkAes, hsup, hseek, Option.orElse]
    · intro ts
      simp only [playingArm, mkEngine, renderFlag, mkAes]
      by_cases hts : achieved ≤ ts <;> simp [hts]
  · intro hseek
    refine ⟨{ mkAes r reqTs with trackInfo := some ⟨t0.id, 0⟩ }, ?_, rfl, ?_⟩
    · simp [setupAudioReader, mkAes, hsup, hseek, Option.orElse]
    · intro ts
      simp [playingArm, mkEngine, renderFlag, mkAes]

/-- C2 witness: a one-track reader whose accurate seek to 500 achieves
500; packets at timestamps 499 and 500 of the selected track are trimmed
and rendered respectively. -/
theorem c2_seek_trim_witness :
    (firstSupportedTrack demoReader.tracks = some demoTrack ∧
      demoReader.seekResult 500 = SeekOutcome.seekedTo 500) ∧
    (∃ aes1, setupAudioReader (mkAes demoReader 500) = Step.ok aes1 ∧
      aes1.trackInfo = some ⟨demoTrack.id, 500⟩ ∧
      ∀ ts : ℕ,
        renderFlag (playingArm
            ⟨PacketOutcome.packet demoTrack.id ts DecodeOutcome.ok, false, true⟩
            (mkEngine aes1))
          = decide (500 ≤ ts)) :=
  ⟨⟨rfl, rfl⟩, (c2_seek_trim demoReader 500 500 demoTrack rfl).1 rfl⟩

/-- C6: for every ring-buffer behaviour — including one that stays full
and never accepts a sample — `write`'s retry loop terminates (it is a
total function) with a retry count of at most 5, never records more
samples than it was given (the rest are dropped), still returns `Ok`,
and logs exactly when samples were dropped and the last warning is more
than the 500 ms rate-limit window old — hence at most once per window
per call. -/
theorem c6_write_bounded_retries (env : WriteEnv) (c : WriteCall) :
    (cpalWrite env c).retries ≤ 5 ∧
    (cpalWrite env c).samplesWritten ≤ (cpalWrite env c).samplesLen ∧
    (cpalWrite env c).result = Except.ok () ∧
    ((cpalWrite env c).logged = true ↔
      ((cpalWrite env c).samplesWritten < (cpalWrite env c).samplesLen ∧
        500 < env.elapsedSinceWarnMs)) := by
  unfold cpalWrite
  split
  · simp
  · split
    · simp
    · next len heq =>
      have h := writeRetryLoop_le env.writeBlocking len 5 0 0
        (by omega) (by omega) (Nat.zero_le _)
      simp only [Bool.and_eq_true, decide_eq_true_eq]
      exact ⟨h.1, h.2, trivial, trivial⟩

/-- C9: the cpal sink's `write` returns `Ok` for every decoded buffer,
volume, resampler behaviour and ring-buffer behaviour; no error variant
ever reaches the caller. -/
theorem c9_write_always_ok (env : WriteEnv) (c : WriteCall) :
    (cpalWrite env c).result = Except.ok () := by
  unfold cpalWrite
  split
  · rfl
  · split <;> rfl

/-- C7 counterexample: for the u16 device sample type, the callback at
volume 0.5 maps the silence sample 32768 (amplitude zero) to 16384,
whereas scaling its amplitude by 0.5 relative to the offset midpoint
leaves it at 32768 — an error of 16384 steps, far beyond floating-point
tolerance.  The callback scales raw sample values, which is amplitude
scaling only for types whose midpoint is zero. -/
theorem c7_counterexample :
    callback (32768 : ℤ) mulU16 (1/2 : ℚ) [32768] 1 = [16384] ∧
    u16AmpScale 32768 (1/2) = 32768 ∧
    ((16384 : ℤ) ≠ 32768) := by
  refine ⟨?_, ?_, by decide⟩
  · norm_num [callback, mulU16, truncQ, clampU16]
  · norm_num [u16AmpScale]

/-- C7 (amended): the callback reads the volume once per invocation and,
when it is not 1.0, multiplies each written sample's raw value by V; for
f32 this is exact amplitude scaling about the zero midpoint, for i16 it
is amplitude scaling within one least-significant step (truncation)
whenever the scaled value is in range, and V = 1.0 leaves samples
unchanged; for u16 the same raw multiplication is not amplitude scaling
about its 32768 midpoint (see the counterexample). -/
theorem c7_volume_scaling (v : ℚ) (ring : List ℚ) (req : ℕ) (si : ℤ)
    (hv : v ≠ 1) (hin : |(si : ℚ) * v| ≤ 32767) :
    callback 0 mulF32 v ring req
      = (ring.take req).map (fun s => mulF32 s v)
        ++ List.replicate (req - (ring.take req).length) 0 ∧
    (∀ s : ℚ, mulF32 s v = v * s) ∧
    callback 0 mulF32 1 ring req
      = ring.take req ++ List.replicate (req - (ring.take req).length) 0 ∧
    |((mulI16 si v : ℤ) : ℚ) - v * (si : ℚ)| < 1 := by
  refine ⟨by simp [callback, hv], fun s => mul_comm s v, by simp [callback], ?_⟩
  have hc : |((truncQ ((si : ℚ) * v) : ℤ) : ℚ)| ≤ 32767 :=
    le_trans (truncQ_abs_le _) hin
  have hcz : |truncQ ((si : ℚ) * v)| ≤ 32767 := by exact_mod_cast hc
  have hcl : clampI16 (truncQ ((si : ℚ) * v)) = truncQ ((si : ℚ) * v) := by
    rw [abs_le] at hcz
    unfold clampI16
    omega
  unfold mulI16
  rw [hcl, mul_comm v ((si : ℚ))]
  exact truncQ_close _

/-- C7 witness: volume 0.5 on an f32 ring holding one sample, and the
i16 sample 100 whose scaled value 50 is in range. -/
theorem c7_volume_scaling_witness :
    (((1 : ℚ)/2 ≠ 1) ∧ |((100 : ℤ) : ℚ) * (1/2)| ≤ 32767) ∧
    (callback 0 mulF32 (1/2) [(3 : ℚ)] 2
        = ([(3 : ℚ)].take 2).map (fun s => mulF32 s (1/2))
          ++ List.replicate (2 - ([(3 : ℚ)].take 2).length) 0 ∧
      (∀ s : ℚ, mulF32 s (1/2) = (1/2) * s) ∧
      callback 0 mulF32 1 [(3 : ℚ)] 2
        = [(3 : ℚ)].take 2 ++ List.replicate (2 - ([(3 : ℚ)].take 2).length) 0 ∧
      |((mulI16 100 (1/2) : ℤ) : ℚ) - (1/2) * ((100 : ℤ) : ℚ)| < 1) :=
  ⟨⟨by norm_num, by norm_num⟩,
    c7_volume_scaling (1/2) [3] 2 100 (by norm_num) (by norm_num)⟩

end BirdPlayer
